import Mathlib

/-!
Shallow embedding of src/core/opengate_core/g4_bindings/pyG4VProcess.cpp.

The file contains a single function

    void init_G4VProcess(py::module &m) {
      py::class_<G4VProcess, std::unique_ptr<G4VProcess, py::nodelete>>(
          m, "G4VProcess");
    }

which registers the native base class G4VProcess into a pybind11 module
under the fixed python-side name "G4VProcess", with the nodelete holder
policy, no declared bases, no constructors, no methods and no attributes.
We model a binding module as a type table (the list of class declarations
registered so far) together with the remaining module attributes, and the
class registration statement as the standard pybind11 semantics: fault on
a duplicate name, otherwise append the declaration and leave the rest of
the module untouched.
-/

namespace OpenGate

/-- Holder policy of a bound class: the default unique ptr deleter frees
the native object when the binding-side holder dies; the nodelete policy
has a deleter whose call does nothing. -/
inductive HolderPolicy where
  | defaultDelete : HolderPolicy
  | nodelete : HolderPolicy
  deriving DecidableEq, Repr

/-- One registered class in the binding module: the native type it wraps,
the fixed python-side name, the holder policy, the native bases declared
in the template arguments, and the constructors, methods and attributes
bound on it. -/
structure ClassDecl where
  cppType : String
  pyName : String
  holder : HolderPolicy
  bases : List String
  ctors : Nat
  methods : List String
  attrs : List String
  deriving DecidableEq, Repr

/-- A binding module: its type table plus the module attributes that are
not class registrations (bound functions, submodules, constants). -/
structure Module where
  registry : List ClassDecl
  otherAttrs : List (String × String)
  deriving DecidableEq, Repr

/-- Whether a python-side name is already present in the type table. -/
def Module.hasName (m : Module) (n : String) : Bool :=
  m.registry.any (fun d => d.pyName == n)

/-- How many entries of the type table carry a given python-side name. -/
def Module.countName (m : Module) (n : String) : Nat :=
  (m.registry.filter (fun d => d.pyName == n)).length

/-- Lookup of a registered declaration by native type. -/
def Module.findByCpp (m : Module) (t : String) : Option ClassDecl :=
  m.registry.find? (fun d => d.cppType == t)

/-- Semantics of a py class registration statement: fault on a duplicate
name, otherwise append the declaration to the type table and leave the
rest of the module unchanged. -/
def registerClass (m : Module) (d : ClassDecl) : Except String Module :=
  if m.hasName d.pyName then
    Except.error ("generic_type: type " ++ d.pyName ++ " is already registered")
  else
    Except.ok { m with registry := m.registry ++ [d] }

/-- The class declaration made on lines 18 and 19 of the source: native
type G4VProcess, holder std unique ptr with py nodelete, python-side name
G4VProcess, no bases, no constructors, no methods, no attributes. -/
def G4VProcessDecl : ClassDecl :=
  { cppType := "G4VProcess"
    pyName := "G4VProcess"
    holder := HolderPolicy.nodelete
    bases := []
    ctors := 0
    methods := []
    attrs := [] }

/-- The parameter list of init_G4VProcess as declared on line 16. -/
def init_G4VProcess_params : List String := ["py::module &m"]

/-- void init_G4VProcess(py::module &m): the body is the single class
registration statement for G4VProcessDecl. -/
def init_G4VProcess (m : Module) : Except String Module :=
  registerClass m G4VProcessDecl

/-- Lifetime flag of a native object owned by the native library. -/
structure NativeObject where
  alive : Bool
  deriving DecidableEq, Repr

/-- Effect on the native object when the binding-side holder is
destroyed: the default deleter frees it, the nodelete deleter leaves it
untouched. -/
def holderDestroy (p : HolderPolicy) (o : NativeObject) : NativeObject :=
  match p with
  | HolderPolicy.defaultDelete => { alive := false }
  | HolderPolicy.nodelete => o

/-- Cross-boundary instance check: an object of native type sub is
recognized as an instance of native type base when the two types
coincide, or when the registered declaration of sub lists base among its
declared bases and base itself is registered in the module. -/
def isInstanceOf (m : Module) (sub base : String) : Bool :=
  sub == base ||
    (match m.findByCpp sub with
     | some d => d.bases.contains base && (m.findByCpp base).isSome
     | none => false)

/-- Calling a bound class from the scripting side: fails when the name is
unknown or when the declaration bound no constructor. -/
def instantiate (m : Module) (n : String) : Except String NativeObject :=
  match m.registry.find? (fun d => d.pyName == n) with
  | none => Except.error ("type " ++ n ++ " is not defined")
  | some d =>
    if d.ctors = 0 then
      Except.error ("cannot instantiate " ++ n ++ ": no constructor defined")
    else
      Except.ok { alive := true }

/-- The empty binding module, before any registration. -/
def emptyModule : Module := { registry := [], otherAttrs := [] }

/-- A module that already carries the G4VProcess registration. -/
def dupModule : Module := { registry := [G4VProcessDecl], otherAttrs := [] }

/-- A subclass declaration of the kind the source comment mentions: a
step limiter process registered elsewhere with G4VProcess as its base. -/
def G4StepLimiterDecl : ClassDecl :=
  { cppType := "G4StepLimiter"
    pyName := "G4StepLimiter"
    holder := HolderPolicy.defaultDelete
    bases := ["G4VProcess"]
    ctors := 1
    methods := []
    attrs := [] }

/-! Helper lemmas shared by the claim theorems. -/

theorem registerClass_ok_elim (m m' : Module) (d : ClassDecl)
    (h : registerClass m d = Except.ok m') :
    m.hasName d.pyName = false ∧
    m' = { m with registry := m.registry ++ [d] } := by
  by_cases hb : m.hasName d.pyName = true
  · simp [registerClass, hb] at h
  · rw [Bool.not_eq_true] at hb
    simp [registerClass, hb] at h
    exact ⟨hb, h.symm⟩

theorem init_ok_elim (m m' : Module)
    (h : init_G4VProcess m = Except.ok m') :
    m.hasName "G4VProcess" = false ∧
    m' = { m with registry := m.registry ++ [G4VProcessDecl] } :=
  registerClass_ok_elim m m' G4VProcessDecl h

theorem find?_append_of_none {α : Type} (p : α → Bool) (l₁ l₂ : List α)
    (h : ∀ a ∈ l₁, p a = false) :
    (l₁ ++ l₂).find? p = l₂.find? p := by
  induction l₁ with
  | nil => rfl
  | cons a l ih =>
    have ha : p a = false := h a (List.mem_cons_self a l)
    rw [List.cons_append, List.find?_cons_of_neg _ (by simp [ha])]
    exact ih fun b hb => h b (List.mem_cons_of_mem a hb)

theorem hasName_false_forall (m : Module) (n : String)
    (h : m.hasName n = false) :
    ∀ d ∈ m.registry, (d.pyName == n) = false := by
  intro d hd
  have := List.any_eq_false.mp h d hd
  simpa using this

theorem countName_zero_hasName (m : Module) (n : String)
    (h : m.countName n = 0) : m.hasName n = false := by
  have hnil : m.registry.filter (fun d => d.pyName == n) = [] :=
    List.length_eq_zero.mp h
  rw [Module.hasName]
  by_contra hb
  rw [Bool.not_eq_false, List.any_eq_true] at hb
  obtain ⟨d, hd, hc⟩ := hb
  have hmem : d ∈ m.registry.filter (fun d => d.pyName == n) :=
    List.mem_filter.mpr ⟨hd, hc⟩
  rw [hnil] at hmem
  exact absurd hmem (List.not_mem_nil d)

/-- C1: the registration declares the no-delete ownership mode, and under
that holder policy the delete branch is unreachable: destroying the
binding-side holder leaves the native object exactly as it was, so the
binding layer never deallocates it. -/
theorem C1_nodelete_ownership :
    G4VProcessDecl.holder = HolderPolicy.nodelete ∧
    ∀ o : NativeObject, holderDestroy G4VProcessDecl.holder o = o :=
  ⟨rfl, fun _ => rfl⟩

/-- C2: on a module that does not yet carry the name, executing
init_G4VProcess registers exactly one externally-defined type, under the
fixed name G4VProcess, by appending exactly that one entry to the type
table. -/
theorem C2_registers_single_type (m : Module)
    (h : m.hasName "G4VProcess" = false) :
    G4VProcessDecl.pyName = "G4VProcess" ∧
    init_G4VProcess m =
      Except.ok { m with registry := m.registry ++ [G4VProcessDecl] } := by
  have hh : m.hasName G4VProcessDecl.pyName = false := h
  exact ⟨rfl, by simp [init_G4VProcess, registerClass, hh]⟩

/-- Witness for C2 at the empty module. -/
theorem C2_witness :
    G4VProcessDecl.pyName = "G4VProcess" ∧
    init_G4VProcess emptyModule =
      Except.ok
        { emptyModule with registry := emptyModule.registry ++ [G4VProcessDecl] } :=
  C2_registers_single_type emptyModule rfl

/-- C3 counterexample: the claim says init_G4VProcess has no parameters,
but line 16 of the source declares one parameter, the module reference. -/
theorem C3_counterexample : init_G4VProcess_params ≠ [] := by
  decide

/-- C3 as amended: init_G4VProcess takes exactly one parameter, the
binding module it registers into, and its whole behavior is the single
registration statement applied to that module. -/
theorem C3_single_module_parameter :
    init_G4VProcess_params.length = 1 ∧
    ∀ m : Module, init_G4VProcess m = registerClass m G4VProcessDecl :=
  ⟨rfl, fun _ => rfl⟩

/-- C4: one successful execution of init_G4VProcess on a module that did
not already contain the name raises no error, and afterwards the name
G4VProcess appears in the registry exactly once. -/
theorem C4_loads_once (m : Module)
    (h : m.countName "G4VProcess" = 0) :
    ∃ m', init_G4VProcess m = Except.ok m' ∧
      m'.countName "G4VProcess" = 1 := by
  have hn : m.hasName "G4VProcess" = false := countName_zero_hasName m _ h
  have hh : m.hasName G4VProcessDecl.pyName = false := hn
  refine ⟨{ m with registry := m.registry ++ [G4VProcessDecl] }, ?_, ?_⟩
  · simp [init_G4VProcess, registerClass, hh]
  · simp only [Module.countName] at h ⊢
    rw [List.filter_append, List.length_append, h]
    decide

/-- Witness for C4 at the empty module. -/
theorem C4_witness :
    ∃ m', init_G4VProcess emptyModule = Except.ok m' ∧
      m'.countName "G4VProcess" = 1 :=
  C4_loads_once emptyModule rfl

/-- C5: after a successful run of init_G4VProcess, any binding unit that
then registers a fresh subclass declaring G4VProcess among its bases has
that subclass recognized as an instance of G4VProcess by the
cross-boundary instance check. -/
theorem C5_subclass_recognized (m m₁ m₂ : Module) (sub : ClassDecl)
    (h₁ : init_G4VProcess m = Except.ok m₁)
    (h₂ : registerClass m₁ sub = Except.ok m₂)
    (hbase : sub.bases.contains "G4VProcess" = true)
    (hsub : sub.cppType ≠ "G4VProcess")
    (hfresh : ∀ d ∈ m.registry, d.cppType ≠ sub.cppType) :
    isInstanceOf m₂ sub.cppType "G4VProcess" = true := by
  obtain ⟨hn₁, rfl⟩ := init_ok_elim m m₁ h₁
  obtain ⟨hn₂, rfl⟩ := registerClass_ok_elim _ m₂ sub h₂
  have hall : ∀ d ∈ m.registry ++ [G4VProcessDecl],
      (fun d => d.cppType == sub.cppType) d = false := by
    intro d hd
    rcases List.mem_append.mp hd with hdl | hdr
    · exact beq_eq_false_iff_ne.mpr (hfresh d hdl)
    · have hd' : d = G4VProcessDecl := by simpa using hdr
      subst hd'
      exact beq_eq_false_iff_ne.mpr hsub.symm
  have hfind :
      ((m.registry ++ [G4VProcessDecl]) ++ [sub]).find?
          (fun d => d.cppType == sub.cppType) = some sub := by
    rw [find?_append_of_none _ _ _ hall]
    simp [List.find?]
  have hne : (sub.cppType == "G4VProcess") = false :=
    beq_eq_false_iff_ne.mpr hsub
  have hbasefound :
      (((m.registry ++ [G4VProcessDecl]) ++ [sub]).find?
          (fun d => d.cppType == "G4VProcess")).isSome = true := by
    rw [List.find?_isSome]
    exact ⟨G4VProcessDecl, by simp, by simp [G4VProcessDecl]⟩
  simp only [isInstanceOf, Module.findByCpp, hne, Bool.false_or, hfind, hbase,
    hbasefound, Bool.and_self]

/-- Witness for C5: register G4VProcess into the empty module, then a
step limiter subclass, and check the instance relation. -/
theorem C5_witness :
    isInstanceOf
      { registry := [G4VProcessDecl, G4StepLimiterDecl], otherAttrs := [] }
      G4StepLimiterDecl.cppType "G4VProcess" = true :=
  C5_subclass_recognized emptyModule
    { registry := [G4VProcessDecl], otherAttrs := [] }
    { registry := [G4VProcessDecl, G4StepLimiterDecl], otherAttrs := [] }
    G4StepLimiterDecl rfl rfl rfl (by decide) (fun d hd => nomatch hd)

/-- C6: the unit handles no failure mode itself: when the name is free
the registration succeeds unconditionally, and when it is taken the
fault propagates out of the unit as an error of the surrounding
module-initialization sequence, with no recovery inside. -/
theorem C6_no_failure_handling (m : Module) :
    (m.hasName "G4VProcess" = true →
      ∃ e, init_G4VProcess m = Except.error e) ∧
    (m.hasName "G4VProcess" = false →
      init_G4VProcess m =
        Except.ok { m with registry := m.registry ++ [G4VProcessDecl] }) := by
  constructor
  · intro h
    have hh : m.hasName G4VProcessDecl.pyName = true := h
    refine ⟨"generic_type: type " ++ G4VProcessDecl.pyName ++
      " is already registered", ?_⟩
    simp [init_G4VProcess, registerClass, hh]
  · intro h
    have hh : m.hasName G4VProcessDecl.pyName = false := h
    simp [init_G4VProcess, registerClass, hh]

/-- Witness for C6 at a duplicate-carrying module and at the empty
module. -/
theorem C6_witness :
    (∃ e, init_G4VProcess dupModule = Except.error e) ∧
    init_G4VProcess emptyModule =
      Except.ok
        { emptyModule with registry := emptyModule.registry ++ [G4VProcessDecl] } :=
  ⟨(C6_no_failure_handling dupModule).1 rfl,
   (C6_no_failure_handling emptyModule).2 rfl⟩

/-- C7: the registration is one-shot: a single execution adds exactly one
entry to the type table, and re-executing it on the resulting module does
not repeat the registration but faults, so there are no retries and no
repeated effect on the shared module. -/
theorem C7_one_shot (m : Module)
    (h : m.hasName "G4VProcess" = false) :
    ∃ m', init_G4VProcess m = Except.ok m' ∧
      m'.countName "G4VProcess" = m.countName "G4VProcess" + 1 ∧
      ∃ e, init_G4VProcess m' = Except.error e := by
  have hh : m.hasName G4VProcessDecl.pyName = false := h
  refine ⟨{ m with registry := m.registry ++ [G4VProcessDecl] }, ?_, ?_, ?_⟩
  · simp [init_G4VProcess, registerClass, hh]
  · simp [Module.countName, List.filter_append, G4VProcessDecl]
  · have hdup :
        ({ m with registry := m.registry ++ [G4VProcessDecl] } : Module).hasName
          G4VProcessDecl.pyName = true := by
      simp [Module.hasName, List.any_append, G4VProcessDecl]
    refine ⟨"generic_type: type " ++ G4VProcessDecl.pyName ++
      " is already registered", ?_⟩
    simp [init_G4VProcess, registerClass, hdup]

/-- Witness for C7 at the empty module. -/
theorem C7_witness :
    ∃ m', init_G4VProcess emptyModule = Except.ok m' ∧
      m'.countName "G4VProcess" = emptyModule.countName "G4VProcess" + 1 ∧
      ∃ e, init_G4VProcess m' = Except.error e :=
  C7_one_shot emptyModule rfl

/-- C8: frame property: a successful run of init_G4VProcess changes
nothing in the module except appending the single G4VProcess entry to the
type table; every other module attribute is untouched. -/
theorem C8_frame (m m' : Module)
    (h : init_G4VProcess m = Except.ok m') :
    m'.otherAttrs = m.otherAttrs ∧
    m'.registry = m.registry ++ [G4VProcessDecl] := by
  obtain ⟨-, rfl⟩ := init_ok_elim m m' h
  exact ⟨rfl, rfl⟩

/-- Witness for C8 at the empty module. -/
theorem C8_witness :
    ({ registry := [G4VProcessDecl], otherAttrs := [] } : Module).otherAttrs =
        emptyModule.otherAttrs ∧
    ({ registry := [G4VProcessDecl], otherAttrs := [] } : Module).registry =
        emptyModule.registry ++ [G4VProcessDecl] :=
  C8_frame emptyModule { registry := [G4VProcessDecl], otherAttrs := [] } rfl

/-- C9: the registered declaration binds no constructor, no methods and
no attributes, so instantiating G4VProcess from the binding side of a
module loaded by init_G4VProcess fails. -/
theorem C9_no_constructor (m m' : Module)
    (h : init_G4VProcess m = Except.ok m') :
    G4VProcessDecl.ctors = 0 ∧ G4VProcessDecl.methods = [] ∧
    G4VProcessDecl.attrs = [] ∧
    ∃ e, instantiate m' "G4VProcess" = Except.error e := by
  obtain ⟨hn, rfl⟩ := init_ok_elim m m' h
  refine ⟨rfl, rfl, rfl, ?_⟩
  have hall : ∀ d ∈ m.registry,
      (fun d => d.pyName == "G4VProcess") d = false :=
    hasName_false_forall m _ hn
  have hfind :
      (m.registry ++ [G4VProcessDecl]).find?
          (fun d => d.pyName == "G4VProcess") = some G4VProcessDecl := by
    rw [find?_append_of_none _ _ _ hall]
    simp [List.find?, G4VProcessDecl]
  refine ⟨"cannot instantiate " ++ "G4VProcess" ++ ": no constructor defined", ?_⟩
  simp only [instantiate]
  rw [hfind]
  rfl

/-- Witness for C9 at the empty module. -/
theorem C9_witness :
    G4VProcessDecl.ctors = 0 ∧ G4VProcessDecl.methods = [] ∧
    G4VProcessDecl.attrs = [] ∧
    ∃ e, instantiate { registry := [G4VProcessDecl], otherAttrs := [] }
        "G4VProcess" = Except.error e :=
  C9_no_constructor emptyModule
    { registry := [G4VProcessDecl], otherAttrs := [] } rfl

/-- C10: init_G4VProcess is deterministic: its result is fully determined
by the fields of the module passed in, so two runs from equal module
states end in equal states, with no other input or hidden state read. -/
theorem C10_deterministic (m₁ m₂ : Module)
    (h₁ : m₁.registry = m₂.registry) (h₂ : m₁.otherAttrs = m₂.otherAttrs) :
    init_G4VProcess m₁ = init_G4VProcess m₂ := by
  have hm : m₁ = m₂ := by
    cases m₁
    cases m₂
    simp_all
  rw [hm]

/-- Witness for C10 on two syntactically distinct but equal modules. -/
theorem C10_witness :
    init_G4VProcess emptyModule =
      init_G4VProcess { registry := [], otherAttrs := [] } :=
  C10_deterministic emptyModule { registry := [], otherAttrs := [] } rfl rfl

end OpenGate
